import Mathlib

/-!
Verification of the ka-progress traversal-and-aggregation engine
(`src/ka_progress/app.py`), shallowly embedded in Lean 4.

The embedding models:
* `UnitStatus` — the per-unit snapshot dataclass with its six counters and
  the derived `is_done` property;
* `update_unit_status_from_payload` — the static fold of one GraphQL payload
  into a `UnitStatus`, built from the per-item step
  `update_unit_status_item` (the body of the `for item in item_progress`
  loop);
* `fetch_unit_progress` — one unit visit: attaching the response listener,
  delivery of background responses to every attached listener, the three
  exit paths (success / timeout / other error), the no-data check, and the
  drain of buffered responses with per-response parse-failure recovery;
* `traverse_course` — the course controller: title check, unit-URL
  discovery, sequential unit visits, and collection of successful
  snapshots in discovery order.

Console output (`console.print`) is modelled as a list of `LogMsg` values,
one constructor per distinct format string in the source.  The browser and
network are modelled as environments (`VisitEnv`, `CourseEnv`) stating what
the page does during a visit: which responses fire while the listener is
attached, and whether navigation succeeds, times out, or raises.
-/

/-- The per-unit snapshot: `UnitStatus` dataclass of the source, with the
six integer counters defaulting to zero. -/
structure UnitStatus where
  course : String
  unit_title : String
  completed_articles : Nat := 0
  completed_exercises : Nat := 0
  completed_videos : Nat := 0
  unread_articles : Nat := 0
  unmastered_exercises : Nat := 0
  unwatched_videos : Nat := 0
  deriving Repr, DecidableEq

/-- The derived `is_done` property of `UnitStatus`: all three
needs-attention counters are zero. -/
def UnitStatus.is_done (s : UnitStatus) : Bool :=
  s.unread_articles == 0
    && s.unmastered_exercises == 0
    && s.unwatched_videos == 0

/-- The six counters of a snapshot, bundled for statements about counter
values. -/
def UnitStatus.counters (s : UnitStatus) : Nat × Nat × Nat × Nat × Nat × Nat :=
  (s.completed_articles, s.completed_exercises, s.completed_videos,
   s.unread_articles, s.unmastered_exercises, s.unwatched_videos)

/-- The `content` sub-dictionary of a content-item record; `typename`
models its optional `__typename` key. -/
structure ContentRef where
  typename : Option String := none
  deriving Repr, DecidableEq

/-- One record of `contentItemProgresses`: an optional `completionStatus`
key and an optional `content` sub-dictionary. -/
structure ContentItem where
  completionStatus : Option String := none
  content : Option ContentRef := none
  deriving Repr, DecidableEq

/-- The local `is_completed` of the loop body:
`item.get("completionStatus", "") == "COMPLETE"`. -/
def ContentItem.is_completed (item : ContentItem) : Bool :=
  item.completionStatus.getD "" == "COMPLETE"

/-- The local `item_type` of the loop body:
`item.get("content", {}).get("__typename", "")`. -/
def ContentItem.item_type (item : ContentItem) : String :=
  match item.content with
  | none => ""
  | some c => c.typename.getD ""

/-- Console output of the engine, one constructor per distinct
`console.print` format string in the source. -/
inductive LogMsg where
  /-- `Unknown item type: {item_type}` -/
  | unknownItemType (t : String)
  /-- `Timeout while fetching {url}` -/
  | timeoutMsg (url : String)
  /-- `Error fetching {url}: {e}` -/
  | errorMsg (url : String) (e : String)
  /-- `Error parsing response: {e}` -/
  | parseErrorMsg
  /-- `No progress data found for unit: {title}` -/
  | noDataMsg (title : String)
  /-- `-----> Fetching progress for unit: {title}` -/
  | fetchingUnit (title : String)
  /-- `Course title not found for slug: {slug}` -/
  | courseTitleNotFound (slug : String)
  /-- `No units found for course: {title}` -/
  | noUnitsFound (title : String)
  /-- `Fetching progress for course: {title}` -/
  | fetchingCourse (title : String)
  deriving Repr, DecidableEq

/-- The body of the `for item in item_progress` loop of
`update_unit_status_from_payload`: Python's `match` on string literals is
an equality chain, rendered here as an if-chain.  Returns the updated
status and the console output of this step. -/
def update_unit_status_item (status : UnitStatus) (item : ContentItem) :
    UnitStatus × List LogMsg :=
  let is_completed := item.is_completed
  let item_type := item.item_type
  if item_type == "Article" then
    if is_completed then
      ({ status with completed_articles := status.completed_articles + 1 }, [])
    else
      ({ status with unread_articles := status.unread_articles + 1 }, [])
  else if item_type == "Video" then
    if is_completed then
      ({ status with completed_videos := status.completed_videos + 1 }, [])
    else
      ({ status with unwatched_videos := status.unwatched_videos + 1 }, [])
  else if item_type == "Exercise" then
    if is_completed then
      ({ status with completed_exercises := status.completed_exercises + 1 }, [])
    else
      ({ status with unmastered_exercises := status.unmastered_exercises + 1 }, [])
  else
    (status, [LogMsg.unknownItemType item_type])

/-- The `user` level of a payload: optional `contentItemProgresses` key. -/
structure PayloadUser where
  contentItemProgresses : Option (List ContentItem) := none
  deriving Repr, DecidableEq

/-- The `data` level of a payload: optional `user` key. -/
structure PayloadData where
  user : Option PayloadUser := none
  deriving Repr, DecidableEq

/-- A parsed response payload: optional `data` key. -/
structure Payload where
  data : Option PayloadData := none
  deriving Repr, DecidableEq

/-- The `item_progress` extraction of `update_unit_status_from_payload`:
`payload.get("data", {}).get("user", {}).get("contentItemProgresses", [])`.
Each missing key yields the next default, ending in the empty list. -/
def Payload.item_progress (payload : Payload) : List ContentItem :=
  match payload.data with
  | none => []
  | some d =>
    match d.user with
    | none => []
    | some u => u.contentItemProgresses.getD []

/-- `KAProgress.update_unit_status_from_payload`: extract `item_progress`
and run the per-item loop over it, accumulating console output. -/
def update_unit_status_from_payload (status : UnitStatus) (payload : Payload) :
    UnitStatus × List LogMsg :=
  let item_progress := payload.item_progress
  item_progress.foldl
    (fun acc item =>
      let r := update_unit_status_item acc.1 item
      (r.1, acc.2 ++ r.2))
    (status, [])

/-- Status-only fold of a list of item records (the loop of
`update_unit_status_from_payload`, projected to the status). -/
def foldItems (status : UnitStatus) (items : List ContentItem) : UnitStatus :=
  items.foldl (fun s item => (update_unit_status_item s item).1) status

/-- Status-only fold of a list of payloads (the drain loop of
`fetch_unit_progress`, projected to the status). -/
def foldPayloads (status : UnitStatus) (payloads : List Payload) : UnitStatus :=
  payloads.foldl (fun s p => (update_unit_status_from_payload s p).1) status

/-- The substring looked for in `response.request.url` by the
`on_response` closure. -/
def target_url_fragment : String :=
  "/api/internal/graphql/getUserInfoForTopicProgressMastery"

/-- A raw background response: its originating request URL, and its parsed
body (`none` models `response.json()` raising). -/
structure RawResponse where
  request_url : String
  body : Option Payload := none
  deriving Repr, DecidableEq

/-- The filter of the `on_response` closure: the target fragment occurs as
a substring of the request URL. -/
def on_response_matches (r : RawResponse) : Bool :=
  decide (target_url_fragment.data <:+: r.request_url.data)

/-- Outcome of the navigate-and-read-title phase of a unit visit:
`success title` means `goto` and the title `inner_text` both succeeded,
`timeout` models `playwright.TimeoutError`, `error e` any other raised
exception. -/
inductive NavResult where
  | success (title : String)
  | timeout
  | error (e : String)
  deriving Repr, DecidableEq

/-- What the page does during one unit visit: the navigation outcome, and
the background responses fired (in order) while the visit's listener is
attached. -/
structure VisitEnv where
  nav : NavResult
  responses : List RawResponse
  deriving Repr, DecidableEq

/-- The responses of a visit environment that the `on_response` filter
matches, in arrival order. -/
def matchedResponses (env : VisitEnv) : List RawResponse :=
  env.responses.filter on_response_matches

/-- The page's listener state: a fresh-id counter, the ids of currently
attached response listeners, and each listener's captured buffer. -/
structure PageState where
  nextId : Nat
  attached : List Nat
  buffers : Nat → List RawResponse

/-- The page state before any listener was ever attached. -/
def PageState.init : PageState :=
  { nextId := 0, attached := [], buffers := fun _ => [] }

/-- Delivery of one background response: every attached listener whose
filter matches appends it to its buffer. -/
def deliver (buffers : Nat → List RawResponse) (attached : List Nat)
    (r : RawResponse) : Nat → List RawResponse :=
  if on_response_matches r then
    fun i => if attached.contains i then buffers i ++ [r] else buffers i
  else
    buffers

/-- Delivery of a sequence of background responses, in order. -/
def deliverAll (buffers : Nat → List RawResponse) (attached : List Nat)
    (rs : List RawResponse) : Nat → List RawResponse :=
  rs.foldl (fun b r => deliver b attached r) buffers

/-- One iteration of the drain loop of `fetch_unit_progress`: parse the
buffered response; on failure print the parse error and keep the status,
otherwise fold the payload in. -/
def drain_one (status : UnitStatus) (r : RawResponse) : UnitStatus × List LogMsg :=
  match r.body with
  | none => (status, [LogMsg.parseErrorMsg])
  | some payload => update_unit_status_from_payload status payload

/-- The drain loop of `fetch_unit_progress`: each buffered response whose
body parses is folded into the status; a parse failure prints an error and
continues with the next response. -/
def drainResponses (status : UnitStatus) (rs : List RawResponse) :
    UnitStatus × List LogMsg :=
  rs.foldl
    (fun acc r => ((drain_one acc.1 r).1, acc.2 ++ (drain_one acc.1 r).2))
    (status, [])

/-- `KAProgress.fetch_unit_progress`: attach a fresh listener with an empty
buffer, deliver the responses fired during the visit to every attached
listener, detach the listener (the `finally`), and then branch on the
navigation outcome: timeout and other errors return no snapshot; on
success, an empty buffer is the no-data failure, otherwise the buffered
responses are drained into a fresh `UnitStatus`. -/
def fetch_unit_progress (course_title url : String) (env : VisitEnv)
    (ps : PageState) : (Option UnitStatus × List LogMsg) × PageState :=
  let myId := ps.nextId
  let attached1 := ps.attached ++ [myId]
  let buffers1 := fun i => if i = myId then [] else ps.buffers i
  let buffers2 := deliverAll buffers1 attached1 env.responses
  let attached2 := attached1.erase myId
  let ps' : PageState :=
    { nextId := ps.nextId + 1, attached := attached2, buffers := buffers2 }
  let result : Option UnitStatus × List LogMsg :=
    match env.nav with
    | NavResult.timeout => (none, [LogMsg.timeoutMsg url])
    | NavResult.error e => (none, [LogMsg.errorMsg url e])
    | NavResult.success title =>
      let captured_responses := buffers2 myId
      if captured_responses.isEmpty then
        (none, [LogMsg.fetchingUnit title, LogMsg.noDataMsg title])
      else
        let r := drainResponses
          { course := course_title, unit_title := title } captured_responses
        (some r.1, LogMsg.fetchingUnit title :: r.2)
  (result, ps')

/-- What the course page exposes during `traverse_course`: the heading
text (empty string when absent), the unit URLs in document order, and the
visit environment of the page's behaviour for the i-th unit visit. -/
structure CourseEnv where
  title : String
  unit_urls : List String
  unitEnv : Nat → VisitEnv

/-- Outcome of a course traversal: the two early-return failures, or the
rendered report (course title and collected snapshots in order). -/
inductive CourseOutcome where
  | courseNotFound
  | unitsMissing (title : String)
  | report (title : String) (statuses : List UnitStatus)
  deriving Repr, DecidableEq

/-- The unit snapshots an outcome carries: the report's rows, and none for
either failure. -/
def CourseOutcome.snapshots : CourseOutcome → List UnitStatus
  | CourseOutcome.report _ statuses => statuses
  | _ => []

/-- The unit loop of `traverse_course`: visit each URL in order with its
environment, thread the page state, and append the snapshot when the visit
returned one (`if status:`). -/
def visitUnits (course_title : String) (envOf : Nat → VisitEnv) :
    List String → Nat → PageState → List UnitStatus × List LogMsg × PageState
  | [], _, ps => ([], [], ps)
  | url :: rest, i, ps =>
    let one := fetch_unit_progress course_title url (envOf i) ps
    let more := visitUnits course_title envOf rest (i + 1) one.2
    (match one.1.1 with
     | some status => status :: more.1
     | none => more.1,
     one.1.2 ++ more.2.1, more.2.2)

/-- `KAProgress.traverse_course`: read the course title (early return when
empty), print the fetching banner, collect the unit URLs (early return when
none), then visit every unit in discovery order and report the collected
snapshots. -/
def traverse_course (course_slug : String) (env : CourseEnv) (ps : PageState) :
    CourseOutcome × List LogMsg × PageState :=
  if env.title = "" then
    (CourseOutcome.courseNotFound, [LogMsg.courseTitleNotFound course_slug], ps)
  else if env.unit_urls = [] then
    (CourseOutcome.unitsMissing env.title,
     [LogMsg.fetchingCourse env.title, LogMsg.noUnitsFound env.title], ps)
  else
    let r := visitUnits env.title env.unitEnv env.unit_urls 0 ps
    (CourseOutcome.report env.title r.1,
     LogMsg.fetchingCourse env.title :: r.2.1, r.2.2)

/-- A record classified as a completed article by the loop body. -/
def isCompletedArticle (item : ContentItem) : Bool :=
  item.item_type == "Article" && item.is_completed

/-- A record classified as an unread article by the loop body. -/
def isUnreadArticle (item : ContentItem) : Bool :=
  item.item_type == "Article" && !item.is_completed

/-- A record classified as a completed video by the loop body. -/
def isCompletedVideo (item : ContentItem) : Bool :=
  item.item_type == "Video" && item.is_completed

/-- A record classified as an unwatched video by the loop body. -/
def isUnwatchedVideo (item : ContentItem) : Bool :=
  item.item_type == "Video" && !item.is_completed

/-- A record classified as a completed exercise by the loop body. -/
def isCompletedExercise (item : ContentItem) : Bool :=
  item.item_type == "Exercise" && item.is_completed

/-- A record classified as an unmastered exercise by the loop body. -/
def isUnmasteredExercise (item : ContentItem) : Bool :=
  item.item_type == "Exercise" && !item.is_completed

theorem is_completed_iff (item : ContentItem) :
    item.is_completed = true ↔ item.completionStatus = some "COMPLETE" := by
  cases h : item.completionStatus <;>
    simp [ContentItem.is_completed, h]

theorem update_unit_status_item_fst (s : UnitStatus) (item : ContentItem) :
    (update_unit_status_item s item).1 =
      { course := s.course, unit_title := s.unit_title,
        completed_articles :=
          s.completed_articles + (if isCompletedArticle item then 1 else 0),
        completed_exercises :=
          s.completed_exercises + (if isCompletedExercise item then 1 else 0),
        completed_videos :=
          s.completed_videos + (if isCompletedVideo item then 1 else 0),
        unread_articles :=
          s.unread_articles + (if isUnreadArticle item then 1 else 0),
        unmastered_exercises :=
          s.unmastered_exercises + (if isUnmasteredExercise item then 1 else 0),
        unwatched_videos :=
          s.unwatched_videos + (if isUnwatchedVideo item then 1 else 0) } := by
  by_cases h1 : item.item_type = "Article" <;>
    by_cases h2 : item.item_type = "Video" <;>
      by_cases h3 : item.item_type = "Exercise" <;>
        by_cases hc : item.is_completed = true <;>
          simp_all [update_unit_status_item, isCompletedArticle, isUnreadArticle,
            isCompletedVideo, isUnwatchedVideo, isCompletedExercise,
            isUnmasteredExercise]

/-- C5: for every `UnitStatus`, `is_done` is true iff `unread_articles`,
`unmastered_exercises` and `unwatched_videos` are all zero; in particular a
snapshot built with no items folded in (all counters at their zero
defaults) is done. -/
theorem c5_is_done_characterization :
    (∀ s : UnitStatus,
      s.is_done = true ↔
        (s.unread_articles = 0 ∧ s.unmastered_exercises = 0 ∧ s.unwatched_videos = 0))
    ∧ ∀ c t : String, ({ course := c, unit_title := t } : UnitStatus).is_done = true := by
  constructor
  · intro s
    simp [UnitStatus.is_done, and_assoc]
  · intro c t
    simp [UnitStatus.is_done]

/-- C10: a payload in which `data`, `user` or `contentItemProgresses` is
absent folds to an unchanged status with no console output — the malformed
nesting is treated as an empty item list. -/
theorem c10_malformed_payload_noop (s : UnitStatus) (p : Payload)
    (h : p.data = none
      ∨ (∃ d, p.data = some d ∧ d.user = none)
      ∨ (∃ d u, p.data = some d ∧ d.user = some u ∧ u.contentItemProgresses = none)) :
    update_unit_status_from_payload s p = (s, []) := by
  have hempty : p.item_progress = [] := by
    rcases h with h | ⟨d, hd, hu⟩ | ⟨d, u, hd, hu, hc⟩ <;>
      simp [Payload.item_progress, *]
  simp [update_unit_status_from_payload, hempty]

theorem c10_malformed_payload_noop_witness :
    update_unit_status_from_payload
        { course := "Math", unit_title := "Unit 1" }
        { data := some { user := none } }
      = ({ course := "Math", unit_title := "Unit 1" }, []) :=
  c10_malformed_payload_noop _ _ (Or.inr (Or.inl ⟨_, rfl, rfl⟩))

/-- C2: the per-record fold step increments exactly the counter selected by
the record's category tag and by whether `completionStatus` is literally
`COMPLETE` (a missing or different status counts as not completed), and for
any unrecognised tag — absent or empty included — it leaves the status
unchanged and prints the unknown-type warning. -/
theorem c2_item_step_classification (s : UnitStatus) (item : ContentItem) :
    (item.item_type = "Article" →
      (item.completionStatus = some "COMPLETE" →
        update_unit_status_item s item =
          ({ s with completed_articles := s.completed_articles + 1 }, []))
      ∧ (item.completionStatus ≠ some "COMPLETE" →
        update_unit_status_item s item =
          ({ s with unread_articles := s.unread_articles + 1 }, [])))
    ∧ (item.item_type = "Video" →
      (item.completionStatus = some "COMPLETE" →
        update_unit_status_item s item =
          ({ s with completed_videos := s.completed_videos + 1 }, []))
      ∧ (item.completionStatus ≠ some "COMPLETE" →
        update_unit_status_item s item =
          ({ s with unwatched_videos := s.unwatched_videos + 1 }, [])))
    ∧ (item.item_type = "Exercise" →
      (item.completionStatus = some "COMPLETE" →
        update_unit_status_item s item =
          ({ s with completed_exercises := s.completed_exercises + 1 }, []))
      ∧ (item.completionStatus ≠ some "COMPLETE" →
        update_unit_status_item s item =
          ({ s with unmastered_exercises := s.unmastered_exercises + 1 }, [])))
    ∧ (item.item_type ≠ "Article" → item.item_type ≠ "Video" →
       item.item_type ≠ "Exercise" →
        update_unit_status_item s item = (s, [LogMsg.unknownItemType item.item_type])) := by
  have hic := is_completed_iff item
  refine ⟨fun h1 => ⟨fun hc => ?_, fun hc => ?_⟩,
          fun h1 => ⟨fun hc => ?_, fun hc => ?_⟩,
          fun h1 => ⟨fun hc => ?_, fun hc => ?_⟩,
          fun h1 h2 h3 => ?_⟩ <;>
    simp_all [update_unit_status_item]

theorem c2_item_step_classification_witness :
    (update_unit_status_item { course := "c", unit_title := "u" }
        { completionStatus := some "COMPLETE",
          content := some { typename := some "Article" } }
      = ({ course := "c", unit_title := "u", completed_articles := 1 }, []))
    ∧ (update_unit_status_item { course := "c", unit_title := "u" }
        { completionStatus := none,
          content := some { typename := some "Exercise" } }
      = ({ course := "c", unit_title := "u", unmastered_exercises := 1 }, []))
    ∧ (update_unit_status_item { course := "c", unit_title := "u" }
        { completionStatus := some "COMPLETE", content := none }
      = ({ course := "c", unit_title := "u" }, [LogMsg.unknownItemType ""])) :=
  ⟨((c2_item_step_classification _ _).1 (by decide)).1 (by decide),
   (((c2_item_step_classification _ _).2.2.1 (by decide)).2 (by decide)),
   ((c2_item_step_classification _ _).2.2.2 (by decide) (by decide) (by decide))⟩

theorem foldl_step_fst {S A L : Type} (f : S → A → S × List L) :
    ∀ (xs : List A) (s : S) (l : List L),
      (xs.foldl (fun acc a => ((f acc.1 a).1, acc.2 ++ (f acc.1 a).2)) (s, l)).1 =
        xs.foldl (fun s a => (f s a).1) s := by
  intro xs
  induction xs with
  | nil => intro s l; rfl
  | cons x xs ih => intro s l; simp [List.foldl_cons, ih]

theorem foldl_step_snd {S A L : Type} (f : S → A → S × List L) :
    ∀ (xs : List A) (s : S) (l : List L),
      (xs.foldl (fun acc a => ((f acc.1 a).1, acc.2 ++ (f acc.1 a).2)) (s, l)).2 =
        l ++ (xs.foldl (fun acc a => ((f acc.1 a).1, acc.2 ++ (f acc.1 a).2)) (s, [])).2 := by
  intro xs
  induction xs with
  | nil => intro s l; simp
  | cons x xs ih =>
    intro s l
    simp only [List.foldl_cons, List.nil_append]
    rw [ih _ (l ++ (f s x).2), ih _ ((f s x).2)]
    simp [List.append_assoc]

theorem update_unit_status_from_payload_fst (s : UnitStatus) (p : Payload) :
    (update_unit_status_from_payload s p).1 = foldItems s p.item_progress := by
  simp only [update_unit_status_from_payload]
  exact foldl_step_fst update_unit_status_item p.item_progress s []

theorem foldItems_append (s : UnitStatus) (l₁ l₂ : List ContentItem) :
    foldItems s (l₁ ++ l₂) = foldItems (foldItems s l₁) l₂ := by
  simp [foldItems, List.foldl_append]

theorem foldPayloads_flatten (payloads : List Payload) : ∀ (s : UnitStatus),
    foldPayloads s payloads = foldItems s (payloads.map Payload.item_progress).flatten := by
  induction payloads with
  | nil => intro s; rfl
  | cons p ps ih =>
    intro s
    simp only [foldPayloads, List.foldl_cons, List.map_cons, List.flatten_cons]
    rw [foldItems_append, ← update_unit_status_from_payload_fst]
    exact ih ((update_unit_status_from_payload s p).1)

theorem foldItems_closed (items : List ContentItem) : ∀ (s : UnitStatus),
    foldItems s items =
      { course := s.course, unit_title := s.unit_title,
        completed_articles := s.completed_articles + items.countP isCompletedArticle,
        completed_exercises := s.completed_exercises + items.countP isCompletedExercise,
        completed_videos := s.completed_videos + items.countP isCompletedVideo,
        unread_articles := s.unread_articles + items.countP isUnreadArticle,
        unmastered_exercises := s.unmastered_exercises + items.countP isUnmasteredExercise,
        unwatched_videos := s.unwatched_videos + items.countP isUnwatchedVideo } := by
  induction items with
  | nil => intro s; simp [foldItems]
  | cons item rest ih =>
    intro s
    have hstep : foldItems s (item :: rest) =
        foldItems ((update_unit_status_item s item).1) rest := by
      simp [foldItems]
    rw [hstep, ih, update_unit_status_item_fst]
    simp only [List.countP_cons, UnitStatus.mk.injEq]
    refine ⟨trivial, trivial, ?_, ?_, ?_, ?_, ?_, ?_⟩ <;> split <;> omega

/-- C3: folding the same multiset of content-item records — under any
reordering and any partition into payload batches — yields identical final
values of all six counters. -/
theorem c3_fold_order_and_batch_independent (s : UnitStatus)
    (batches₁ batches₂ : List Payload)
    (h : ((batches₁.map Payload.item_progress).flatten).Perm
         ((batches₂.map Payload.item_progress).flatten)) :
    (foldPayloads s batches₁).counters = (foldPayloads s batches₂).counters := by
  rw [foldPayloads_flatten, foldPayloads_flatten, foldItems_closed, foldItems_closed]
  simp only [UnitStatus.counters]
  rw [h.countP_eq isCompletedArticle, h.countP_eq isCompletedExercise,
    h.countP_eq isCompletedVideo, h.countP_eq isUnreadArticle,
    h.countP_eq isUnmasteredExercise, h.countP_eq isUnwatchedVideo]

/-- A fixture payload carrying the given item records at the expected
nesting. -/
def payloadOf (items : List ContentItem) : Payload :=
  { data := some { user := some { contentItemProgresses := some items } } }

/-- A fixture record: a completed article. -/
def itemArticleDone : ContentItem :=
  { completionStatus := some "COMPLETE", content := some { typename := some "Article" } }

/-- A fixture record: a video with no completion status. -/
def itemVideoTodo : ContentItem :=
  { completionStatus := none, content := some { typename := some "Video" } }

theorem c3_fold_order_and_batch_independent_witness :
    (foldPayloads { course := "c", unit_title := "u" }
        [payloadOf [itemArticleDone, itemVideoTodo]]).counters
      = (foldPayloads { course := "c", unit_title := "u" }
        [payloadOf [itemVideoTodo], payloadOf [itemArticleDone]]).counters :=
  c3_fold_order_and_batch_independent _ _ _
    (by simpa [payloadOf, Payload.item_progress] using
      List.Perm.swap itemVideoTodo itemArticleDone [])

theorem deliverAll_get (rs : List RawResponse) :
    ∀ (buffers : Nat → List RawResponse) (attached : List Nat) (i : Nat),
      attached.contains i = true →
      deliverAll buffers attached rs i = buffers i ++ rs.filter on_response_matches := by
  induction rs with
  | nil => intro b a i h; simp [deliverAll]
  | cons r rs ih =>
    intro b a i h
    have h1 : deliverAll b a (r :: rs) = deliverAll (deliver b a r) a rs := by
      simp [deliverAll]
    rw [h1, ih _ _ _ h]
    have hmem : i ∈ a := by simpa using h
    by_cases hm : on_response_matches r <;>
      simp [deliver, hm, h, hmem, List.filter_cons, List.append_assoc]

theorem fetch_unit_progress_snd (course_title url : String) (env : VisitEnv)
    (ps : PageState) :
    (fetch_unit_progress course_title url env ps).2 =
      { nextId := ps.nextId + 1,
        attached := (ps.attached ++ [ps.nextId]).erase ps.nextId,
        buffers := deliverAll (fun i => if i = ps.nextId then [] else ps.buffers i)
          (ps.attached ++ [ps.nextId]) env.responses } := rfl

theorem fetch_unit_progress_fst (course_title url : String) (env : VisitEnv)
    (ps : PageState) :
    (fetch_unit_progress course_title url env ps).1 =
      match env.nav with
      | NavResult.timeout => (none, [LogMsg.timeoutMsg url])
      | NavResult.error e => (none, [LogMsg.errorMsg url e])
      | NavResult.success title =>
        if (matchedResponses env).isEmpty then
          (none, [LogMsg.fetchingUnit title, LogMsg.noDataMsg title])
        else
          let r := drainResponses
            { course := course_title, unit_title := title } (matchedResponses env)
          (some r.1, LogMsg.fetchingUnit title :: r.2) := by
  have hc : (ps.attached ++ [ps.nextId]).contains ps.nextId = true := by simp
  have hbuf : deliverAll (fun i => if i = ps.nextId then [] else ps.buffers i)
      (ps.attached ++ [ps.nextId]) env.responses ps.nextId = matchedResponses env := by
    rw [deliverAll_get _ _ _ _ hc]
    simp [matchedResponses]
  cases hnav : env.nav with
  | timeout => simp [fetch_unit_progress, hnav]
  | error e => simp [fetch_unit_progress, hnav]
  | success title =>
    simp only [fetch_unit_progress, hnav]
    rw [hbuf]

theorem fetch_fst_state_independent (course_title url : String) (env : VisitEnv)
    (ps ps' : PageState) :
    (fetch_unit_progress course_title url env ps).1 =
      (fetch_unit_progress course_title url env ps').1 := by
  rw [fetch_unit_progress_fst, fetch_unit_progress_fst]

theorem foldl_drain_one_eq (rs : List RawResponse) : ∀ (s : UnitStatus),
    rs.foldl (fun s r => (drain_one s r).1) s =
      foldPayloads s (rs.filterMap RawResponse.body) := by
  induction rs with
  | nil => intro s; rfl
  | cons r rs ih =>
    intro s
    simp only [List.foldl_cons, List.filterMap_cons]
    cases hb : r.body with
    | none =>
      simp only [hb]
      have h1 : (drain_one s r).1 = s := by simp [drain_one, hb]
      rw [h1, ih s]
    | some p =>
      simp only [hb]
      have h1 : (drain_one s r).1 = (update_unit_status_from_payload s p).1 := by
        simp [drain_one, hb]
      rw [h1, ih ((update_unit_status_from_payload s p).1)]
      rfl

theorem drainResponses_fst (s : UnitStatus) (rs : List RawResponse) :
    (drainResponses s rs).1 = foldPayloads s (rs.filterMap RawResponse.body) := by
  simp only [drainResponses]
  rw [foldl_step_fst drain_one]
  exact foldl_drain_one_eq rs s

theorem drainResponses_snd_cons (s : UnitStatus) (r : RawResponse)
    (rs : List RawResponse) :
    (drainResponses s (r :: rs)).2 =
      (drain_one s r).2 ++ (drainResponses ((drain_one s r).1) rs).2 := by
  simp only [drainResponses, List.foldl_cons]
  rw [foldl_step_snd drain_one]
  simp

theorem drain_parse_warning : ∀ (rs : List RawResponse) (s : UnitStatus)
    (r : RawResponse), r ∈ rs → r.body = none →
    LogMsg.parseErrorMsg ∈ (drainResponses s rs).2 := by
  intro rs
  induction rs with
  | nil => intro s r h; simp at h
  | cons r' rs ih =>
    intro s r hmem hbody
    rw [drainResponses_snd_cons]
    rcases List.mem_cons.mp hmem with h | h
    · subst h
      simp [drain_one, hbody]
    · exact List.mem_append_right _ (ih _ r h hbody)

/-- C9: during the drain of a unit visit's buffered responses, a response
whose body fails to parse is skipped with a parse-error warning and does
not abort the batch: the resulting status is exactly the fold of the
payloads of the parseable responses, in order, and a visit whose buffer is
non-empty still returns a snapshot. -/
theorem c9_parse_failure_skipped (s : UnitStatus) (rs : List RawResponse) :
    (drainResponses s rs).1 = foldPayloads s (rs.filterMap RawResponse.body)
    ∧ (∀ r ∈ rs, r.body = none →
        LogMsg.parseErrorMsg ∈ (drainResponses s rs).2)
    ∧ ∀ (c u t : String) (e : VisitEnv) (ps : PageState),
        e.nav = NavResult.success t → matchedResponses e ≠ [] →
        ∃ snap, (fetch_unit_progress c u e ps).1.1 = some snap := by
  refine ⟨drainResponses_fst s rs, fun r hmem hb => drain_parse_warning rs s r hmem hb,
    fun c u t e ps hnav hne => ?_⟩
  rw [fetch_unit_progress_fst, hnav]
  simp [List.isEmpty_iff, hne]

/-- C4: a unit visit whose buffer matched no responses fails with the
no-data message and produces no snapshot, while a visit that buffered one
response parsing to an empty item list returns a snapshot with all six
counters zero; the two outcomes differ. -/
theorem c4_nodata_vs_empty_items (c u t : String) (e₀ e₁ : VisitEnv)
    (ps₀ ps₁ : PageState) (r : RawResponse) (p : Payload)
    (h0nav : e₀.nav = NavResult.success t) (h0 : matchedResponses e₀ = [])
    (h1nav : e₁.nav = NavResult.success t) (h1 : matchedResponses e₁ = [r])
    (hb : r.body = some p) (hp : p.item_progress = []) :
    (fetch_unit_progress c u e₀ ps₀).1
        = (none, [LogMsg.fetchingUnit t, LogMsg.noDataMsg t])
    ∧ (fetch_unit_progress c u e₁ ps₁).1.1 = some { course := c, unit_title := t }
    ∧ ({ course := c, unit_title := t } : UnitStatus).counters = (0, 0, 0, 0, 0, 0)
    ∧ (fetch_unit_progress c u e₀ ps₀).1.1 ≠ (fetch_unit_progress c u e₁ ps₁).1.1 := by
  have hA : (fetch_unit_progress c u e₀ ps₀).1
      = (none, [LogMsg.fetchingUnit t, LogMsg.noDataMsg t]) := by
    rw [fetch_unit_progress_fst, h0nav]
    simp [h0]
  have hB : (fetch_unit_progress c u e₁ ps₁).1.1
      = some { course := c, unit_title := t } := by
    rw [fetch_unit_progress_fst, h1nav]
    have : drainResponses { course := c, unit_title := t } [r]
        = drainResponses { course := c, unit_title := t } (matchedResponses e₁) := by
      rw [h1]
    rw [h1]
    simp only [List.isEmpty_cons, Bool.false_eq_true, if_false]
    have hdrain : (drainResponses ({ course := c, unit_title := t } : UnitStatus) [r]).1
        = { course := c, unit_title := t } := by
      rw [drainResponses_fst]
      simp only [List.filterMap_cons, hb, List.filterMap_nil]
      simp [foldPayloads, update_unit_status_from_payload, hp]
    simp [hdrain]
  refine ⟨hA, hB, rfl, ?_⟩
  rw [hB]
  have : (fetch_unit_progress c u e₀ ps₀).1.1 = none := by rw [hA]
  rw [this]
  simp

/-- C6: a navigation timeout makes the visit fail with the timeout message
and no snapshot, any other navigation error with the navigation-error
message and no snapshot, and the timeout, navigation-error and no-data
messages are pairwise distinct. -/
theorem c6_failure_taxonomy (c u m : String) (e e' : VisitEnv)
    (ps ps' : PageState)
    (ht : e.nav = NavResult.timeout) (he : e'.nav = NavResult.error m) :
    (fetch_unit_progress c u e ps).1 = (none, [LogMsg.timeoutMsg u])
    ∧ (fetch_unit_progress c u e' ps').1 = (none, [LogMsg.errorMsg u m])
    ∧ ∀ t : String,
        LogMsg.timeoutMsg u ≠ LogMsg.errorMsg u m
        ∧ LogMsg.timeoutMsg u ≠ LogMsg.noDataMsg t
        ∧ LogMsg.errorMsg u m ≠ LogMsg.noDataMsg t := by
  refine ⟨?_, ?_, fun t => by simp⟩
  · rw [fetch_unit_progress_fst, ht]
  · rw [fetch_unit_progress_fst, he]

/-- C1: every unit visit leaves the page's set of attached response
listeners exactly as it found it, on all three exit paths, and the outcome
of a visit performed after any earlier visit equals the outcome of the same
visit on a pristine page — no payload captured earlier can leak into a
later visit's buffer. -/
theorem c1_listener_balance (course_title url : String) (env : VisitEnv)
    (ps : PageState) (h : ps.nextId ∉ ps.attached) :
    ((fetch_unit_progress course_title url env ps).2).attached = ps.attached
    ∧ ∀ (cA uA : String) (envA : VisitEnv) (cB uB : String) (envB : VisitEnv),
        (fetch_unit_progress cB uB envB
            ((fetch_unit_progress cA uA envA ps).2)).1 =
          (fetch_unit_progress cB uB envB PageState.init).1 := by
  constructor
  · rw [fetch_unit_progress_snd]
    rw [List.erase_append_right _ h, List.erase_cons_head, List.append_nil]
  · intro cA uA envA cB uB envB
    exact fetch_fst_state_independent cB uB envB _ _

theorem visitUnits_fst (course_title : String) (envOf : Nat → VisitEnv) :
    ∀ (urls : List String) (i : Nat) (ps : PageState),
      (visitUnits course_title envOf urls i ps).1 =
        (List.enumFrom i urls).filterMap
          (fun q => (fetch_unit_progress course_title q.2 (envOf q.1)
            PageState.init).1.1) := by
  intro urls
  induction urls with
  | nil => intro i ps; simp [visitUnits]
  | cons url rest ih =>
    intro i ps
    simp only [visitUnits]
    rw [fetch_fst_state_independent course_title url (envOf i) ps PageState.init]
    cases h : (fetch_unit_progress course_title url (envOf i) PageState.init).1.1 <;>
      simp [List.enumFrom, List.filterMap_cons, h, ih]

/-- C7: a course page with an empty heading text fails as course-not-found
with no unit visits and an unchanged page state, and a page whose heading
is present but which exposes zero unit anchors fails as no-units-found,
again with no unit visits, an unchanged page state, and no snapshots in the
outcome. -/
theorem c7_course_structural_failures (course_slug : String) (env : CourseEnv)
    (ps : PageState) :
    (env.title = "" →
      traverse_course course_slug env ps =
        (CourseOutcome.courseNotFound,
         [LogMsg.courseTitleNotFound course_slug], ps))
    ∧ (env.title ≠ "" → env.unit_urls = [] →
      traverse_course course_slug env ps =
        (CourseOutcome.unitsMissing env.title,
         [LogMsg.fetchingCourse env.title, LogMsg.noUnitsFound env.title], ps)
      ∧ (traverse_course course_slug env ps).1.snapshots = []) := by
  constructor
  · intro h
    simp [traverse_course, h]
  · intro h1 h2
    constructor
    · simp [traverse_course, h1, h2]
    · simp [traverse_course, h1, h2, CourseOutcome.snapshots]

/-- C8: when the course title and at least one unit anchor are present, the
report carries exactly the snapshots of the successful unit visits, one per
discovered URL in discovery order, with failed visits contributing
nothing. -/
theorem c8_report_exact_successes (course_slug : String) (env : CourseEnv)
    (ps : PageState) (htitle : env.title ≠ "") (hunits : env.unit_urls ≠ []) :
    (traverse_course course_slug env ps).1 =
      CourseOutcome.report env.title
        ((List.enumFrom 0 env.unit_urls).filterMap
          (fun q => (fetch_unit_progress env.title q.2 (env.unitEnv q.1)
            PageState.init).1.1)) := by
  simp only [traverse_course, if_neg htitle, if_neg hunits]
  rw [visitUnits_fst]

/-- A fixture response matching the target endpoint whose body fails to
parse. -/
def respBad : RawResponse :=
  { request_url := target_url_fragment, body := none }

/-- A fixture response matching the target endpoint carrying one completed
article. -/
def respGood : RawResponse :=
  { request_url := target_url_fragment, body := some (payloadOf [itemArticleDone]) }

/-- A fixture response matching the target endpoint carrying an empty item
list. -/
def respEmptyItems : RawResponse :=
  { request_url := target_url_fragment, body := some (payloadOf []) }

/-- A fixture response that does not match the target endpoint. -/
def respOther : RawResponse :=
  { request_url := "https://www.khanacademy.org/other", body := none }

/-- A fixture visit in which navigation times out. -/
def envTimeout : VisitEnv := { nav := NavResult.timeout, responses := [] }

/-- A fixture visit in which navigation raises a non-timeout error. -/
def envError : VisitEnv := { nav := NavResult.error "net::ERR", responses := [] }

/-- A fixture visit in which the page loads but no matched response
fires. -/
def envNoData : VisitEnv :=
  { nav := NavResult.success "Unit A", responses := [respOther] }

/-- A fixture visit buffering one matched response with an empty item
list. -/
def envEmptyItems : VisitEnv :=
  { nav := NavResult.success "Unit A", responses := [respEmptyItems] }

/-- A fixture visit buffering one unparseable and one parseable matched
response. -/
def envGood : VisitEnv :=
  { nav := NavResult.success "Unit A", responses := [respBad, respGood] }

theorem c1_listener_balance_witness :
    ((fetch_unit_progress "Math" "u1" envTimeout PageState.init).2).attached
        = PageState.init.attached
    ∧ (fetch_unit_progress "Math" "u2" envGood
          ((fetch_unit_progress "Math" "u1" envTimeout PageState.init).2)).1
        = (fetch_unit_progress "Math" "u2" envGood PageState.init).1 := by
  have h := c1_listener_balance "Math" "u1" envTimeout PageState.init
    (by simp [PageState.init])
  exact ⟨h.1, h.2 "Math" "u1" envTimeout "Math" "u2" envGood⟩

theorem c6_failure_taxonomy_witness :
    (fetch_unit_progress "Math" "u" envTimeout PageState.init).1
        = (none, [LogMsg.timeoutMsg "u"])
    ∧ (fetch_unit_progress "Math" "u" envError PageState.init).1
        = (none, [LogMsg.errorMsg "u" "net::ERR"])
    ∧ (LogMsg.timeoutMsg "u" ≠ LogMsg.errorMsg "u" "net::ERR"
       ∧ LogMsg.timeoutMsg "u" ≠ LogMsg.noDataMsg "Unit A"
       ∧ LogMsg.errorMsg "u" "net::ERR" ≠ LogMsg.noDataMsg "Unit A") := by
  have h := c6_failure_taxonomy "Math" "u" "net::ERR" envTimeout envError
    PageState.init PageState.init rfl rfl
  exact ⟨h.1, h.2.1, h.2.2 "Unit A"⟩

theorem c4_nodata_vs_empty_items_witness :
    (fetch_unit_progress "Math" "u" envNoData PageState.init).1
        = (none, [LogMsg.fetchingUnit "Unit A", LogMsg.noDataMsg "Unit A"])
    ∧ (fetch_unit_progress "Math" "u" envEmptyItems PageState.init).1.1
        = some { course := "Math", unit_title := "Unit A" }
    ∧ ({ course := "Math", unit_title := "Unit A" } : UnitStatus).counters
        = (0, 0, 0, 0, 0, 0)
    ∧ (fetch_unit_progress "Math" "u" envNoData PageState.init).1.1
        ≠ (fetch_unit_progress "Math" "u" envEmptyItems PageState.init).1.1 :=
  c4_nodata_vs_empty_items "Math" "u" "Unit A" envNoData envEmptyItems
    PageState.init PageState.init respEmptyItems (payloadOf [])
    rfl (by decide) rfl (by decide) rfl rfl

theorem c9_parse_failure_skipped_witness :
    (drainResponses { course := "Math", unit_title := "Unit A" }
        [respBad, respGood]).1
      = foldPayloads { course := "Math", unit_title := "Unit A" }
          ([respBad, respGood].filterMap RawResponse.body)
    ∧ LogMsg.parseErrorMsg
        ∈ (drainResponses { course := "Math", unit_title := "Unit A" }
            [respBad, respGood]).2
    ∧ ∃ snap,
        (fetch_unit_progress "Math" "u" envGood PageState.init).1.1 = some snap := by
  have h := c9_parse_failure_skipped
    { course := "Math", unit_title := "Unit A" } [respBad, respGood]
  exact ⟨h.1, h.2.1 respBad (by simp) rfl,
    h.2.2 "Math" "u" "Unit A" envGood PageState.init rfl (by decide)⟩

/-- A fixture course page with an absent (empty) heading text. -/
def courseEnvNoTitle : CourseEnv :=
  { title := "", unit_urls := ["u1"], unitEnv := fun _ => envGood }

/-- A fixture course page with a heading but zero unit anchors. -/
def courseEnvNoUnits : CourseEnv :=
  { title := "Course X", unit_urls := [], unitEnv := fun _ => envGood }

/-- A fixture course page with three unit anchors whose middle visit times
out. -/
def courseEnvThreeUnits : CourseEnv :=
  { title := "Course X", unit_urls := ["u1", "u2", "u3"],
    unitEnv := fun i => if i = 1 then envTimeout else envGood }

theorem c7_course_structural_failures_witness :
    traverse_course "/math/cc-2nd-grade-math" courseEnvNoTitle PageState.init
        = (CourseOutcome.courseNotFound,
           [LogMsg.courseTitleNotFound "/math/cc-2nd-grade-math"], PageState.init)
    ∧ (traverse_course "/math/cc-2nd-grade-math" courseEnvNoUnits PageState.init
        = (CourseOutcome.unitsMissing "Course X",
           [LogMsg.fetchingCourse "Course X", LogMsg.noUnitsFound "Course X"],
           PageState.init)
      ∧ (traverse_course "/math/cc-2nd-grade-math" courseEnvNoUnits
          PageState.init).1.snapshots = []) :=
  ⟨(c7_course_structural_failures "/math/cc-2nd-grade-math" courseEnvNoTitle
      PageState.init).1 rfl,
   (c7_course_structural_failures "/math/cc-2nd-grade-math" courseEnvNoUnits
      PageState.init).2 (by decide) rfl⟩

theorem c8_report_exact_successes_witness :
    (traverse_course "/math/cc-2nd-grade-math" courseEnvThreeUnits
        PageState.init).1 =
      CourseOutcome.report "Course X"
        ((List.enumFrom 0 ["u1", "u2", "u3"]).filterMap
          (fun q => (fetch_unit_progress "Course X" q.2
            (courseEnvThreeUnits.unitEnv q.1) PageState.init).1.1)) :=
  c8_report_exact_successes "/math/cc-2nd-grade-math" courseEnvThreeUnits
    PageState.init (by decide) (by decide)
